import Mathlib

/-!
Verification of the RAG core of the `automate-job-application` repository:
the FAISS-backed vector store (`src/rag/vector_store.py`), the Ollama
embedding provider (`src/rag/embeddings.py`) and the resume retriever with
its section-aware chunker (`src/rag/retriever.py`), shallowly embedded in
Lean.

Embedding coordinates are modelled exactly, over an arbitrary linearly
ordered commutative ring `α`: every float32 value is a rational number, so
the instantiation `α = ℚ` covers all vectors the Python code can hold,
while `α = ℤ` is used to evaluate the model on concrete inputs.  Python
exceptions are modelled by an explicit error type and `Except`.
-/

/-- Python exceptions that the modelled code can raise. -/
inductive PyError where
  | valueError : PyError
  | assertionError : PyError
  | indexError : PyError
  | fileNotFound : PyError
deriving DecidableEq, Repr

instance {ε β : Type} [DecidableEq ε] [DecidableEq β] : DecidableEq (Except ε β) :=
  fun a b =>
    match a, b with
    | .ok x, .ok y => if h : x = y then .isTrue (by rw [h]) else .isFalse (by simp [h])
    | .error x, .error y => if h : x = y then .isTrue (by rw [h]) else .isFalse (by simp [h])
    | .ok _, .error _ => .isFalse (by simp)
    | .error _, .ok _ => .isFalse (by simp)

/-- Metadata dictionaries (e.g. `\x7b'section': name\x7d`) as association lists. -/
abbrev Metadata := List (String × String)

/-- `FLT_MAX`, the largest finite float32 value (`2 ^ 128 - 2 ^ 104`).
FAISS pads search results beyond `ntotal` with this distance, and every
squared-L2 distance it reports is a float32, hence at most this value. -/
def FLT_MAX {α : Type} [LinearOrderedCommRing α] : α :=
  340282346638528859811704183484516925440

/-- `FLT_MAX` is `2 ^ 128 - 2 ^ 104`. -/
theorem FLT_MAX_eq {α : Type} [LinearOrderedCommRing α] :
    (FLT_MAX : α) = 2 ^ 128 - 2 ^ 104 := by
  norm_num [FLT_MAX]

/-- Python list indexing `l[i]`: non-negative indices from the front,
negative indices from the back; `none` models an `IndexError`. -/
def pyGet {β : Type} (l : List β) (i : Int) : Option β :=
  if 0 ≤ i then l.get? i.toNat
  else if 0 ≤ i + l.length then l.get? (i + l.length).toNat
  else none

/-- Python `text.split('\n')` on the underlying character list: splits at
every newline; always returns at least one (possibly empty) piece. -/
def splitNl : List Char → List (List Char)
  | [] => [[]]
  | c :: cs =>
    let r := splitNl cs
    if c = '\n' then [] :: r else (c :: r.headD []) :: r.tail

/-- Python `text.split('\n')` on strings. -/
def pySplitLines (text : String) : List String :=
  (splitNl text.toList).map fun l => String.mk l

/-- Python `'\n'.join(lines)`. -/
def joinNl : List String → String
  | [] => ""
  | [t] => t
  | t :: ts => t ++ "\n" ++ joinNl ts

/-- Strip a literal character prelude from a character list; `none` when
the list does not start with it. -/
def dropPre : List Char → List Char → Option (List Char)
  | [], r => some r
  | _ :: _, [] => none
  | p :: ps, c :: cs => if c = p then dropPre ps cs else none

/-- One record of the list returned by `similarity_search`:
`\x7b'text': ..., 'metadata': ..., 'distance': ...\x7d`. -/
structure SearchResult (α : Type) where
  text : String
  metadata : Metadata
  distance : α
deriving DecidableEq, Repr

/-- State of `FAISSVectorStore` (`src/rag/vector_store.py`): the FAISS
`IndexFlatL2` is modelled by the list of vectors it holds, in insertion
order, next to the parallel `texts` and `metadata` lists. -/
structure FAISSVectorStore (α : Type) where
  dimension : Nat
  index : List (List α)
  texts : List String
  metadata : List Metadata
deriving DecidableEq, Repr

namespace FAISSVectorStore

variable {α : Type} [LinearOrderedCommRing α]

/-- `FAISSVectorStore.__init__(embedding_dim)`. -/
def init (embedding_dim : Nat) : FAISSVectorStore α :=
  ⟨embedding_dim, [], [], []⟩

/-- `FAISSVectorStore.add_texts`.  An empty `texts` or `embeddings` is a
silent no-op.  `np.array(embeddings).astype('float32')` raises on a ragged
list of lists, and `faiss.IndexFlat.add` asserts that the row width equals
the index dimension; both failures happen before `self.texts` /
`self.metadata` are extended. -/
def add_texts (s : FAISSVectorStore α) (texts : List String)
    (embeddings : List (List α)) (metadatas : Option (List Metadata)) :
    Except PyError (FAISSVectorStore α) :=
  if texts = [] ∨ embeddings = [] then .ok s
  else
    if ¬ embeddings.all (fun e => e.length = (embeddings.headD []).length) then
      .error .valueError
    else if (embeddings.headD []).length ≠ s.dimension then
      .error .assertionError
    else
      .ok ⟨s.dimension, s.index ++ embeddings, s.texts ++ texts,
           s.metadata ++ metadatas.getD (texts.map fun _ => [])⟩

/-- Squared Euclidean (L2) distance, the metric of `faiss.IndexFlatL2`. -/
def sqDist (q v : List α) : α :=
  ((q.zip v).map fun p => (p.1 - p.2) ^ 2).sum

/-- `faiss.IndexFlatL2.search` on a single query: the `k` result slots hold
the `min k ntotal` stored vectors nearest to the query (squared L2
distance, ties broken by insertion order: the sort is stable and the pairs
are generated in index order), then `k - ntotal` padding slots
`(FLT_MAX, -1)` when `k` exceeds the number of stored vectors. -/
def faissSearch (index : List (List α)) (q : List α) (k : Nat) :
    List (α × Int) :=
  let pairs : List (α × Int) :=
    index.enum.map fun p => (sqDist q p.2, (p.1 : Int))
  let sorted := pairs.insertionSort fun a b => a.1 ≤ b.1
  let m := min k index.length
  sorted.take m ++ List.replicate (k - m) (FLT_MAX, (-1 : Int))

/-- The result-collection loop of `similarity_search`: slots with
`idx < len(self.texts)` are kept and looked up with Python indexing (so a
padding `-1` passes the guard and aliases the *last* stored entry); a
lookup that is out of range even for Python's negative indexing raises an
`IndexError`. -/
def collectResults (s : FAISSVectorStore α) :
    List (α × Int) → List (SearchResult α) →
    Except PyError (List (SearchResult α))
  | [], acc => .ok acc
  | (d, idx) :: rest, acc =>
    if idx < (s.texts.length : Int) then
      match pyGet s.texts idx, pyGet s.metadata idx with
      | some t, some m => collectResults s rest (acc ++ [⟨t, m, d⟩])
      | _, _ => .error .indexError
    else
      collectResults s rest acc

/-- `FAISSVectorStore.similarity_search` (default `k = 4` in the source;
always passed explicitly here).  `faiss` asserts `k > 0` and that the query
width equals the index dimension. -/
def similarity_search (s : FAISSVectorStore α) (query_embedding : List α)
    (k : Nat) : Except PyError (List (SearchResult α)) :=
  if k = 0 then .error .assertionError
  else if query_embedding.length ≠ s.dimension then .error .assertionError
  else collectResults s (faissSearch s.index query_embedding k) []

end FAISSVectorStore

/-- Contents of `store_data.pkl` written by `save`. -/
structure PklData (α : Type) where
  texts : List String
  metadata : List Metadata
  dimension : Nat
deriving DecidableEq, Repr

/-- A persistence directory: the serialized FAISS index (`index.faiss`) and
the pickled side table (`store_data.pkl`), either possibly absent. -/
structure Directory (α : Type) where
  store_data : Option (PklData α)
  index_faiss : Option (List (List α))
deriving DecidableEq, Repr

namespace FAISSVectorStore

variable {α : Type} [LinearOrderedCommRing α]

/-- `FAISSVectorStore.save(directory)`: writes both artifacts. -/
def save (s : FAISSVectorStore α) : Directory α :=
  ⟨some ⟨s.texts, s.metadata, s.dimension⟩, some s.index⟩

/-- `FAISSVectorStore.load(directory)`: reads `store_data.pkl`, constructs
a fresh store with the pickled dimension, installs the pickled texts and
metadata, then replaces the FAISS index with the one read from
`index.faiss`.  A missing artifact raises. -/
def load (directory : Directory α) : Except PyError (FAISSVectorStore α) :=
  match directory.store_data with
  | none => .error .fileNotFound
  | some data =>
    match directory.index_faiss with
    | none => .error .fileNotFound
    | some idx => .ok ⟨data.dimension, idx, data.texts, data.metadata⟩

end FAISSVectorStore

/-! ## The section-aware chunker (`ResumeRetriever._chunk_resume`) -/

/-- The lazy group of `re.match(r'^\\section\x7b(.+?)\x7d', line)` after
the first group character: the characters before the first closing brace,
provided no newline precedes it (`.` does not match a newline). -/
def upToBrace : List Char → Option (List Char)
  | [] => none
  | c :: cs =>
    if c = '\x7d' then some []
    else if c = '\n' then none
    else (upToBrace cs).map (c :: ·)

/-- `re.match(r'^\\section\x7b(.+?)\x7d', line)`: `some name` iff the line
starts with `\section\x7b` and a closing brace follows at least one
non-newline character; `name` is the (non-empty, lazily captured) group. -/
def sectionMatch (line : String) : Option String :=
  match dropPre "\\section\x7b".toList line.toList with
  | none => none
  | some rest =>
    match rest with
    | [] => none
    | c :: cs =>
      if c = '\n' then none
      else (upToBrace cs).map fun g => String.mk (c :: g)

/-- Does `r` match `(.+?)\x7d` (for `n = 1`), resp. `n` groups in total
separated by `\x7d\x7b` and closed by `\x7d`, each group a non-empty run of
non-newline characters?  Python's backtracking makes matchability the
existence of such a decomposition. -/
def segs : Nat → List Char → Bool
  | 0, _ => true
  | 1, r =>
    (List.range r.length).any fun i =>
      decide (1 ≤ i) && decide (r.getD i ' ' = '\x7d') &&
      (r.take i).all (· ≠ '\n')
  | n + 2, r =>
    (List.range r.length).any fun i =>
      decide (1 ≤ i) && decide (r.getD i ' ' = '\x7d') &&
      decide (i + 1 < r.length) && decide (r.getD (i + 1) ' ' = '\x7b') &&
      ((r.take i).all (· ≠ '\n')) && segs (n + 1) (r.drop (i + 2))

/-- `re.match(r'\\resumeSubheading\x7b(.+?)\x7d\x7b(.+?)\x7d\x7b(.+?)\x7d\x7b(.+?)\x7d', line)`
as a Boolean (the captured groups are never used by the chunker). -/
def subsectionMatch (line : String) : Bool :=
  match dropPre "\\resumeSubheading\x7b".toList line.toList with
  | none => false
  | some rest => segs 4 rest

/-- A chunk produced by `_chunk_resume`:
`\x7b'text': ..., 'metadata': \x7b'section': ...\x7d\x7d`. -/
structure Chunk where
  text : String
  metadata : Metadata
deriving DecidableEq, Repr

/-- Truthiness of the Python `current_section` variable (`None` and the
empty string are falsy). -/
def sectionTruthy : Option String → Bool
  | none => false
  | some s => s ≠ ""

/-- The loop state of `_chunk_resume`: accumulated chunks, the current
section name (`None` before the first section marker) and the buffered
lines of the chunk under construction. -/
structure ChunkState where
  chunks : List Chunk
  current_section : Option String
  current_text : List String
deriving DecidableEq, Repr

/-- `if current_section and current_text:` flush of the buffered lines as a
chunk tagged with the current section. -/
def flushChunk (st : ChunkState) : List Chunk :=
  match st.current_section with
  | some s =>
    if s ≠ "" ∧ st.current_text ≠ [] then
      st.chunks ++ [⟨joinNl st.current_text, [("section", s)]⟩]
    else st.chunks
  | none => st.chunks

/-- One iteration of the `for line in text.split('\n')` loop of
`_chunk_resume`: a section marker flushes (if a section is open) and starts
a chunk at the marker line; a subsection marker inside an open section
flushes the buffer and starts a chunk at the marker line; any other line is
appended to the buffer. -/
def chunkStep (st : ChunkState) (line : String) : ChunkState :=
  match sectionMatch line with
  | some name => ⟨flushChunk st, some name, [line]⟩
  | none =>
    if subsectionMatch line ∧ sectionTruthy st.current_section then
      if st.current_text ≠ [] then
        ⟨st.chunks ++ [⟨joinNl st.current_text,
            [("section", st.current_section.getD "")]⟩],
         st.current_section, [line]⟩
      else ⟨st.chunks, st.current_section, [line]⟩
    else ⟨st.chunks, st.current_section, st.current_text ++ [line]⟩

/-- `_chunk_resume` on an explicit list of lines: run the loop from the
initial state and flush the final buffer (only if a section is open). -/
def chunkLines (lines : List String) : List Chunk :=
  flushChunk (lines.foldl chunkStep ⟨[], none, []⟩)

/-- `ResumeRetriever._chunk_resume(text)`. -/
def chunk_resume (text : String) : List Chunk :=
  chunkLines (pySplitLines text)

/-! ## The embedding provider (`OllamaEmbeddings`) and the retriever.

The provider's single external effect, `_call_ollama(text)`, is modelled as
a function `embedOf : String → Option (List α)` (`none` = transport error
or missing `'embedding'` key in the response). -/

/-- `OllamaEmbeddings.embed_documents`: embeds each text and keeps only
truthy results (failures and empty vectors are dropped, shrinking the
list). -/
def embed_documents {α : Type} (embedOf : String → Option (List α))
    (texts : List String) : List (List α) :=
  texts.filterMap fun t =>
    match embedOf t with
    | some e => if e.isEmpty then none else some e
    | none => none

/-- `OllamaEmbeddings.get_embedding_dimension`: calibrates on the probe
string `"test"`; `None` when the probe result is falsy. -/
def get_embedding_dimension {α : Type} (embedOf : String → Option (List α)) :
    Option Nat :=
  match embedOf "test" with
  | some e => if e.isEmpty then none else some e.length
  | none => none

/-- State of `ResumeRetriever`: the embedding provider (as its transport
function), the dimension fixed at construction, and the owned vector
store. -/
structure ResumeRetriever (α : Type) where
  embedOf : String → Option (List α)
  dimension : Nat
  vector_store : FAISSVectorStore α

namespace ResumeRetriever

variable {α : Type} [LinearOrderedCommRing α]

/-- `ResumeRetriever.__init__`: derives the dimension by a calibration
call and raises `ValueError` when it is falsy (`None` or `0`). -/
def mkNew (embedOf : String → Option (List α)) :
    Except PyError (ResumeRetriever α) :=
  match get_embedding_dimension embedOf with
  | none => .error .valueError
  | some d =>
    if d = 0 then .error .valueError
    else .ok ⟨embedOf, d, FAISSVectorStore.init d⟩

/-- `ResumeRetriever.index_resume`: chunk, embed all chunk texts (failures
silently dropped by `embed_documents`), then hand *all* chunk texts and
metadata together with the surviving embeddings to `add_texts`. -/
def index_resume (r : ResumeRetriever α) (resume_text : String) :
    Except PyError (ResumeRetriever α) :=
  let chunks := chunk_resume resume_text
  let texts := chunks.map (·.text)
  let embeddings := embed_documents r.embedOf texts
  (r.vector_store.add_texts texts embeddings
      (some (chunks.map (·.metadata)))).map
    fun vs => ⟨r.embedOf, r.dimension, vs⟩

/-- `ResumeRetriever.get_relevant_experience` (default `num_chunks = 3` in
the source; always passed explicitly here): embeds the query, raising
`ValueError` on a falsy embedding, then delegates to
`similarity_search`. -/
def get_relevant_experience (r : ResumeRetriever α) (job_description : String)
    (num_chunks : Nat) : Except PyError (List (SearchResult α)) :=
  match r.embedOf job_description with
  | none => .error .valueError
  | some q =>
    if q.isEmpty then .error .valueError
    else r.vector_store.similarity_search q num_chunks

/-- `ResumeRetriever.save`: thin delegation. -/
def save (r : ResumeRetriever α) : Directory α :=
  r.vector_store.save

/-- `ResumeRetriever.load`: constructs a fresh retriever (re-deriving the
dimension by a calibration call) and then replaces its vector store with
the one loaded from the directory — with no dimension consistency check. -/
def load (embedOf : String → Option (List α)) (directory : Directory α) :
    Except PyError (ResumeRetriever α) :=
  match mkNew embedOf with
  | .error e => .error e
  | .ok retriever =>
    match FAISSVectorStore.load directory with
    | .error e => .error e
    | .ok vs => .ok ⟨retriever.embedOf, retriever.dimension, vs⟩

end ResumeRetriever

/-! ## Concrete fixtures used by the claim theorems and witnesses -/

/-- A provider (over `ℤ`) that embeds the first and third chunk of
`docThreeChunks` and the calibration probe, but fails on the second
chunk. -/
def embedOfC1 : String → Option (List ℤ) := fun t =>
  if t = "\\section\x7bA\x7d\na1" then some [1]
  else if t = "\\section\x7bC\x7d\nc1" then some [3]
  else if t = "test" then some [0]
  else none

/-- A resume with three sections, hence three chunks. -/
def docThreeChunks : String :=
  "\\section\x7bA\x7d\na1\n\\section\x7bB\x7d\nb1\n\\section\x7bC\x7d\nc1"

/-- The two-section document of the C9 scenario: `Experience` with one
subsection entry, `Education` with none. -/
def docTwoSections : String :=
  "\\section\x7bExperience\x7d\n\\resumeSubheading\x7bDev\x7d\x7bAcme\x7d\x7b2020\x7d\x7bNYC\x7d\ndid things\n\\section\x7bEducation\x7d\nBSc"

/-- A store (over `ℤ`) holding exactly one item. -/
def storeOne : FAISSVectorStore ℤ := ⟨1, [[0]], ["a"], [[("section", "S")]]⟩

/-- A store (over `ℤ`) holding two items. -/
def storeTwo : FAISSVectorStore ℤ := ⟨1, [[0], [2]], ["a", "b"], [[], []]⟩

/-- A provider (over `ℤ`) whose calibration yields dimension 2. -/
def embedOfDim2 : String → Option (List ℤ) := fun t =>
  if t = "test" then some [0, 0] else none

/-- A store (over `ℤ`) of dimension 3, to be saved and re-loaded. -/
def storeDim3 : FAISSVectorStore ℤ := ⟨3, [[1, 2, 3]], ["x"], [[]]⟩

/-! ## Claim theorems -/

/-- Claim C1.  The claim requires `index_resume` to pass only the texts and
metadata of the successfully embedded chunks to `add`, re-aligned to their
embeddings.  The code does not: on a three-chunk resume whose second chunk
fails to embed, the resulting store holds all **3** texts and metadata
entries but only **2** vectors, and position 1 pairs the failed chunk `B`'s
text with chunk `C`'s embedding `[3]` — the positional shift the claim
rules out.  This theorem evaluates the code at that failing input. -/
theorem C1_index_resume_misaligns_after_partial_failure :
    ((ResumeRetriever.mkNew embedOfC1).bind fun r =>
        r.index_resume docThreeChunks).map (fun r => r.vector_store) =
      .ok ⟨1, [[1], [3]],
           ["\\section\x7bA\x7d\na1", "\\section\x7bB\x7d\nb1", "\\section\x7bC\x7d\nc1"],
           [[("section", "A")], [("section", "B")], [("section", "C")]]⟩ ∧
    embedOfC1 "\\section\x7bB\x7d\nb1" = none ∧
    embedOfC1 "\\section\x7bC\x7d\nc1" = some [3] := by
  decide

/-- Claim C2.  The claim says that with `k` larger than the store size `n`,
`search` returns exactly the `n` stored items with no padding and no
duplicates.  In the code, FAISS pads with index `-1`, which passes the
`idx < len(self.texts)` guard and — through Python negative indexing —
aliases the *last* stored entry: on a one-item store with `k = 2` the call
returns **2** records, the second a duplicate of the stored item carrying
the `FLT_MAX` padding distance.  This theorem evaluates the code at that
failing input. -/
theorem C2_search_k_exceeding_size_pads_with_last_item :
    storeOne.similarity_search [0] 2 =
      .ok [⟨"a", [("section", "S")], 0⟩,
           ⟨"a", [("section", "S")], FLT_MAX⟩] := by
  decide

/-- Claim C9 (counterexample).  Chunking the two-section document
(`Experience` with one subsection entry, `Education` with none) does not
produce exactly 2 chunks: the subsection marker flushes the section header
line as a chunk of its own, so 3 chunks are produced. -/
theorem C9_counterexample :
    (chunk_resume docTwoSections).length = 3 ∧
    (chunk_resume docTwoSections).length ≠ 2 := by
  decide

/-- Claim C9 (amended).  Chunking the two-section document produces exactly
3 chunks: the `Experience` header line, the subsection entry (tagged
`Experience`), and the `Education` chunk. -/
theorem C9_amended_three_chunks :
    chunk_resume docTwoSections =
      [⟨"\\section\x7bExperience\x7d", [("section", "Experience")]⟩,
       ⟨"\\resumeSubheading\x7bDev\x7d\x7bAcme\x7d\x7b2020\x7d\x7bNYC\x7d\ndid things",
        [("section", "Experience")]⟩,
       ⟨"\\section\x7bEducation\x7d\nBSc", [("section", "Education")]⟩] := by
  decide

/-- Claim C10.  `add_texts` enforces no length agreement between `texts`
and `embeddings`: adding 3 texts with 2 (dimension-correct) embeddings
returns normally, appending 3 texts and 3 metadata entries but only 2
vectors, breaking the parallel-array invariant. -/
theorem C10_add_texts_accepts_mismatched_lengths :
    ∃ s' : FAISSVectorStore ℤ,
      (FAISSVectorStore.init 1).add_texts ["a", "b", "c"] [[1], [2]] none =
        .ok s' ∧
      s'.texts.length = 3 ∧ s'.metadata.length = 3 ∧ s'.index.length = 2 ∧
      s'.index.length ≠ s'.texts.length :=
  ⟨⟨1, [[1], [2]], ["a", "b", "c"], [[], [], []]⟩,
   by decide, by decide, by decide, by decide, by decide⟩

/-- Claim C6 (counterexample).  The claim says lines before the first
section marker are emitted as a chunk when a marker eventually appears.
They are not: on `intro\n\section\x7bA\x7d\nbody` the only chunk produced is
the `A` section chunk, and no chunk contains the line `intro` — the
pre-marker buffer is discarded when the first marker arrives. -/
theorem C6_counterexample :
    chunk_resume "intro\n\\section\x7bA\x7d\nbody" =
      [⟨"\\section\x7bA\x7d\nbody", [("section", "A")]⟩] ∧
    ∀ c ∈ chunk_resume "intro\n\\section\x7bA\x7d\nbody", c.text ≠ "intro" := by
  decide

/-- Claim C7 (counterexample).  The claim says `load` fails with a
configuration error when the freshly derived provider dimension does not
match the restored index's dimension.  It does not: loading a saved
dimension-3 store with a provider calibrating to dimension 2 succeeds and
returns a retriever whose two dimensions disagree. -/
theorem C7_counterexample :
    ((ResumeRetriever.load embedOfDim2 storeDim3.save).map fun r =>
        (r.dimension, r.vector_store.dimension)) = .ok (2, 3) ∧
    (2 : Nat) ≠ 3 := by
  decide

/-- Claim C4.  Round-trip: loading from a directory a vector store was
saved to succeeds and yields a store whose `similarity_search` agrees with
the original on every query and every `k`. -/
theorem C4_load_of_save_preserves_search
    {α : Type} [LinearOrderedCommRing α] (V : FAISSVectorStore α)
    (q : List α) (k : Nat) :
    ∃ W, FAISSVectorStore.load V.save = .ok W ∧
      W.similarity_search q k = V.similarity_search q k :=
  ⟨V, rfl, rfl⟩

/-- From a state with no open section and no section marker among the
remaining lines, the chunker emits nothing further: the subsection branch
requires an open section and the final flush requires one too. -/
theorem chunk_run_no_marker (lines : List String) (chunks : List Chunk)
    (buf : List String) (h : ∀ l ∈ lines, sectionMatch l = none) :
    flushChunk (lines.foldl chunkStep ⟨chunks, none, buf⟩) = chunks := by
  induction lines generalizing buf with
  | nil => rfl
  | cons l rest ih =>
    have hl : sectionMatch l = none := h l (List.mem_cons_self l rest)
    simp only [List.foldl_cons, chunkStep, hl, sectionTruthy, Bool.false_eq_true,
      and_false, if_false]
    exact ih _ fun x hx => h x (List.mem_cons_of_mem l hx)

/-- From a state with no open section, the lines buffered before the first
section marker never reach a chunk: the run is equivalent to starting at
the first marker with an empty buffer. -/
theorem chunk_run_drops_pre_marker (lines : List String) (chunks : List Chunk)
    (buf : List String) :
    flushChunk (lines.foldl chunkStep ⟨chunks, none, buf⟩) =
    flushChunk (((lines.dropWhile fun l => (sectionMatch l).isNone).foldl
      chunkStep ⟨chunks, none, []⟩)) := by
  induction lines generalizing buf with
  | nil => rfl
  | cons l rest ih =>
    cases hl : sectionMatch l with
    | some name =>
      simp only [List.dropWhile_cons, hl, Option.isNone_some, Bool.false_eq_true,
        if_false, List.foldl_cons, chunkStep, flushChunk]
    | none =>
      simp only [List.dropWhile_cons, hl, Option.isNone_none, if_true,
        List.foldl_cons, chunkStep, sectionTruthy, Bool.false_eq_true, and_false,
        if_false]
      exact ih _

/-- Claim C6 (amended).  Lines before the first section marker are buffered
but **never** emitted: a document with no section markers produces zero
chunks, and in general chunking a document equals chunking it with every
line before the first section marker removed — the buffer is discarded when
the first marker appears, whether or not one appears. -/
theorem C6_amended_pre_marker_lines_never_emitted :
    (∀ text, (∀ l ∈ pySplitLines text, sectionMatch l = none) →
      chunk_resume text = []) ∧
    (∀ text, chunk_resume text =
      chunkLines ((pySplitLines text).dropWhile fun l =>
        (sectionMatch l).isNone)) := by
  constructor
  · intro text h
    exact chunk_run_no_marker _ _ _ h
  · intro text
    exact chunk_run_drops_pre_marker _ _ _

/-- Witness for C6: the no-marker document `no markers\nat all` produces
zero chunks, and chunking `intro\n\section\x7bA\x7d\nbody` equals chunking
it with the pre-marker line removed. -/
theorem C6_witness :
    chunk_resume "no markers\nat all" = [] ∧
    chunk_resume "intro\n\\section\x7bA\x7d\nbody" =
      chunkLines ((pySplitLines "intro\n\\section\x7bA\x7d\nbody").dropWhile
        fun l => (sectionMatch l).isNone) :=
  ⟨C6_amended_pre_marker_lines_never_emitted.1 "no markers\nat all" (by decide),
   C6_amended_pre_marker_lines_never_emitted.2 "intro\n\\section\x7bA\x7d\nbody"⟩

/-- Claim C7 (amended).  `ResumeRetriever.load` re-derives the provider's
dimension fresh (by a calibration call, not from disk), but performs **no**
consistency check against the restored index: whenever construction and the
store load both succeed, `load` succeeds, its `dimension` is the freshly
calibrated one and its vector store is the restored one unchanged —
regardless of whether the two dimensions agree. -/
theorem C7_amended_load_rederives_but_never_checks
    {α : Type} [LinearOrderedCommRing α]
    (embedOf : String → Option (List α)) (dir : Directory α)
    (r0 : ResumeRetriever α) (vs : FAISSVectorStore α)
    (h1 : ResumeRetriever.mkNew embedOf = .ok r0)
    (h2 : FAISSVectorStore.load dir = .ok vs) :
    ∃ r, ResumeRetriever.load embedOf dir = .ok r ∧
      get_embedding_dimension embedOf = some r.dimension ∧
      r.vector_store = vs := by
  refine ⟨⟨r0.embedOf, r0.dimension, vs⟩, ?_, ?_, rfl⟩
  · simp only [ResumeRetriever.load, h1, h2]
  · unfold ResumeRetriever.mkNew at h1
    cases hd : get_embedding_dimension embedOf with
    | none => rw [hd] at h1; exact absurd h1 (by simp)
    | some d =>
      rw [hd] at h1
      by_cases hz : d = 0
      · simp [hz] at h1
      · simp only [hz, if_false, Except.ok.injEq] at h1
        rw [← h1]

/-- Witness for C7: loading the saved dimension-3 store with the
dimension-2 provider. -/
theorem C7_witness :
    ∃ r, ResumeRetriever.load embedOfDim2 storeDim3.save = .ok r ∧
      get_embedding_dimension embedOfDim2 = some r.dimension ∧
      r.vector_store = storeDim3 :=
  C7_amended_load_rederives_but_never_checks embedOfDim2 storeDim3.save
    ⟨embedOfDim2, 2, FAISSVectorStore.init 2⟩ storeDim3 rfl rfl

/-- Claim C3.  Querying a freshly constructed retriever (state
UNINITIALIZED, nothing indexed) always produces an error, never a silent
empty list: a falsy query embedding raises `ValueError`; otherwise the
search on the empty store either fails a FAISS assertion or hits the
`IndexError` from Python-indexing the empty `texts` list with the padding
index `-1`.  This is the fatal error the spec's taxonomy labels
`StateError`. -/
theorem C3_query_before_indexing_raises
    {α : Type} [LinearOrderedCommRing α]
    (embedOf : String → Option (List α)) (r : ResumeRetriever α)
    (h : ResumeRetriever.mkNew embedOf = .ok r)
    (jd : String) (num_chunks : Nat) :
    ∃ e, r.get_relevant_experience jd num_chunks = .error e := by
  unfold ResumeRetriever.mkNew at h
  cases hd : get_embedding_dimension embedOf with
  | none => rw [hd] at h; exact absurd h (by simp)
  | some d =>
    rw [hd] at h
    by_cases hz : d = 0
    · simp [hz] at h
    · simp only [hz, if_false, Except.ok.injEq] at h
      subst h
      unfold ResumeRetriever.get_relevant_experience
      cases hq : embedOf jd with
      | none => exact ⟨.valueError, by simp [hq]⟩
      | some q =>
        simp only [hq]
        by_cases hqe : q.isEmpty
        · exact ⟨.valueError, by simp [hqe]⟩
        · rw [if_neg (by simpa using hqe)]
          unfold FAISSVectorStore.similarity_search
          by_cases hk : num_chunks = 0
          · exact ⟨.assertionError, by simp [hk]⟩
          · rw [if_neg hk]
            by_cases hql : q.length ≠ (FAISSVectorStore.init (α := α) d).dimension
            · exact ⟨.assertionError, by rw [if_pos hql]⟩
            · rw [if_neg hql]
              have hfs : FAISSVectorStore.faissSearch
                  (FAISSVectorStore.init (α := α) d).index q num_chunks =
                  List.replicate num_chunks (FLT_MAX, (-1 : Int)) := by
                simp [FAISSVectorStore.faissSearch, FAISSVectorStore.init]
              rw [hfs]
              obtain ⟨k', rfl⟩ := Nat.exists_eq_succ_of_ne_zero hk
              exact ⟨.indexError, by
                simp [List.replicate_succ, FAISSVectorStore.collectResults,
                  FAISSVectorStore.init, pyGet]⟩

/-- Witness for C3: querying a freshly constructed dimension-2 retriever
with the default chunk count errors out. -/
theorem C3_witness :
    ∃ e, ResumeRetriever.get_relevant_experience (α := ℤ)
      ⟨embedOfDim2, 2, FAISSVectorStore.init 2⟩ "Python AWS" 3 = .error e :=
  C3_query_before_indexing_raises embedOfDim2
    ⟨embedOfDim2, 2, FAISSVectorStore.init 2⟩ rfl "Python AWS" 3

/-- Claim C8.  `add_texts` is atomic per call with respect to dimension
errors: under the dimension invariant, a batch containing a vector whose
length differs from the store dimension is rejected with an error before
any stored array is mutated (either the ragged `np.array` conversion or the
FAISS `add` assertion fires first), and every successful call either
appends the whole batch to all three arrays or (on the silent empty-input
no-op) appends nothing — so every vector ever stored has the store's
dimension. -/
theorem C8_add_texts_atomic_for_dimension_errors
    {α : Type} [LinearOrderedCommRing α]
    (s : FAISSVectorStore α) (texts : List String)
    (embeddings : List (List α)) (metadatas : Option (List Metadata))
    (hWF : ∀ v ∈ s.index, v.length = s.dimension) :
    ((∃ v ∈ embeddings, v.length ≠ s.dimension) → texts ≠ [] →
      ∃ e, s.add_texts texts embeddings metadatas = .error e) ∧
    (∀ s', s.add_texts texts embeddings metadatas = .ok s' →
      (∀ v ∈ s'.index, v.length = s.dimension) ∧
      ((s'.index = s.index ∧ s'.texts = s.texts ∧ s'.metadata = s.metadata) ∨
       (s'.index = s.index ++ embeddings ∧ s'.texts = s.texts ++ texts ∧
        s'.metadata = s.metadata ++ metadatas.getD (texts.map fun _ => [])))) := by
  unfold FAISSVectorStore.add_texts
  by_cases h0 : texts = [] ∨ embeddings = []
  · rw [if_pos h0]
    refine ⟨?_, ?_⟩
    · rintro ⟨v, hv, -⟩ ht
      rcases h0 with h | h
      · exact absurd h ht
      · rw [h] at hv; exact absurd hv (List.not_mem_nil v)
    · intro s' hs'
      injection hs' with hs'
      subst hs'
      exact ⟨hWF, Or.inl ⟨rfl, rfl, rfl⟩⟩
  · rw [if_neg h0]
    by_cases hall : embeddings.all (fun e => e.length = (embeddings.headD []).length) = true
    · rw [if_neg (not_not_intro hall)]
      by_cases hdim : (embeddings.headD []).length ≠ s.dimension
      · rw [if_pos hdim]
        exact ⟨fun _ _ => ⟨.assertionError, rfl⟩, fun s' hs' => by cases hs'⟩
      · rw [if_neg hdim]
        have hdim' : (embeddings.headD []).length = s.dimension := not_not.mp hdim
        have huni : ∀ v ∈ embeddings, v.length = s.dimension := by
          intro v hv
          have := List.all_eq_true.mp hall v hv
          rw [decide_eq_true_iff] at this
          rw [this, hdim']
        refine ⟨?_, ?_⟩
        · rintro ⟨v, hv, hvlen⟩ -
          exact absurd (huni v hv) hvlen
        · intro s' hs'
          injection hs' with hs'
          subst hs'
          refine ⟨?_, Or.inr ⟨rfl, rfl, rfl⟩⟩
          intro v hv
          rcases List.mem_append.mp hv with h | h
          · exact hWF v h
          · exact huni v h
    · rw [if_pos hall]
      exact ⟨fun _ _ => ⟨.valueError, rfl⟩, fun s' hs' => by cases hs'⟩

/-- Witness for C8: on an empty dimension-2 store, adding a batch holding a
length-3 vector is rejected with an error. -/
theorem C8_witness :
    ∃ e, (FAISSVectorStore.init (α := ℤ) 2).add_texts ["a"] [[1, 2, 3]] none =
      .error e :=
  (C8_add_texts_atomic_for_dimension_errors (FAISSVectorStore.init 2) ["a"]
      [[1, 2, 3]] none (by decide)).1 (by decide) (by decide)

/-- A replicated list is pairwise related when the element relates to
itself. -/
theorem pairwise_replicate_of_refl {β : Type} {r : β → β → Prop} (x : β)
    (hx : r x x) : ∀ n, (List.replicate n x).Pairwise r
  | 0 => .nil
  | n + 1 => by
    rw [List.replicate_succ]
    exact .cons (fun y hy => (List.eq_of_mem_replicate hy) ▸ hx)
      (pairwise_replicate_of_refl x hx n)

/-- The distances of the FAISS result slots are non-decreasing: the real
slots are sorted by the stable sort, and the padding slots carry `FLT_MAX`,
which bounds every reported distance. -/
theorem pairwise_fst_faissSearch {α : Type} [LinearOrderedCommRing α]
    (index : List (List α)) (q : List α) (k : Nat)
    (hbound : ∀ v ∈ index, FAISSVectorStore.sqDist q v ≤ FLT_MAX) :
    ((FAISSVectorStore.faissSearch index q k).map Prod.fst).Pairwise
      (· ≤ ·) := by
  unfold FAISSVectorStore.faissSearch
  rw [List.pairwise_map]
  have hmem : ∀ a ∈ (index.enum.map fun p =>
      (FAISSVectorStore.sqDist q p.2, (p.1 : Int))), a.1 ≤ FLT_MAX := by
    intro a ha
    rw [List.mem_map] at ha
    obtain ⟨p, hp, rfl⟩ := ha
    exact hbound p.2 (List.getElem?_mem (List.mem_enum_iff_getElem?.mp hp))
  haveI hTot : IsTotal (α × Int) (fun a b => a.1 ≤ b.1) :=
    ⟨fun a b => le_total a.1 b.1⟩
  haveI hTrans : IsTrans (α × Int) (fun a b => a.1 ≤ b.1) :=
    ⟨fun _ _ _ h h' => le_trans h h'⟩
  have hsorted : ((index.enum.map fun p =>
      (FAISSVectorStore.sqDist q p.2, (p.1 : Int))).insertionSort
        fun a b => a.1 ≤ b.1).Pairwise fun a b => a.1 ≤ b.1 :=
    List.sorted_insertionSort _ _
  rw [List.pairwise_append]
  refine ⟨hsorted.sublist (List.take_sublist _ _), ?_, ?_⟩
  · exact @pairwise_replicate_of_refl (α × Int) (fun a b => a.1 ≤ b.1)
      (FLT_MAX, (-1 : Int)) le_rfl _
  · intro a ha b hb
    have ha' : a ∈ (index.enum.map fun p =>
        (FAISSVectorStore.sqDist q p.2, (p.1 : Int))) := by
      have := (List.take_sublist _ _).mem ha
      exact ((List.perm_insertionSort (fun a b => a.1 ≤ b.1) _).mem_iff).mp this
    have hb' : b = (FLT_MAX, (-1 : Int)) := List.eq_of_mem_replicate hb
    rw [hb']
    exact hmem a ha'

/-- The collection loop of `similarity_search` keeps the distances in slot
order and only filters slots, so it preserves a non-decreasing distance
sequence. -/
theorem collectResults_pairwise {α : Type} [LinearOrderedCommRing α]
    (s : FAISSVectorStore α) :
    ∀ (hits : List (α × Int)) (acc res : List (SearchResult α)),
    (acc.map SearchResult.distance ++ hits.map Prod.fst).Pairwise (· ≤ ·) →
    FAISSVectorStore.collectResults s hits acc = .ok res →
    (res.map SearchResult.distance).Pairwise (· ≤ ·)
  | [], acc, res, hp, hok => by
    injection hok with h
    subst h
    simpa using hp
  | (d, idx) :: rest, acc, res, hp, hok => by
    unfold FAISSVectorStore.collectResults at hok
    by_cases hidx : idx < (s.texts.length : Int)
    · rw [if_pos hidx] at hok
      cases ht : pyGet s.texts idx with
      | none => rw [ht] at hok; cases hok
      | some t =>
        cases hm : pyGet s.metadata idx with
        | none => rw [ht, hm] at hok; cases hok
        | some m =>
          rw [ht, hm] at hok
          refine collectResults_pairwise s rest (acc ++ [⟨t, m, d⟩]) res ?_ hok
          simpa using hp
    · rw [if_neg hidx] at hok
      refine collectResults_pairwise s rest acc res (hp.sublist ?_) hok
      exact List.Sublist.append_left (List.sublist_cons_self _ _) _

/-- Claim C5.  For every populated store and every query, a successful
`similarity_search` returns its records sorted by non-decreasing
`distance`, the distance being the squared Euclidean (L2) distance computed
by `sqDist`.  The hypothesis `hbound` models float32 finiteness: FAISS
reports distances as float32 values, which never exceed `FLT_MAX` (its
result heap is initialised with `FLT_MAX`, so no larger distance is ever
reported). -/
theorem C5_search_results_sorted {α : Type} [LinearOrderedCommRing α]
    (s : FAISSVectorStore α) (q : List α) (k : Nat)
    (res : List (SearchResult α))
    (_hpop : s.index ≠ [])
    (hbound : ∀ v ∈ s.index, FAISSVectorStore.sqDist q v ≤ FLT_MAX)
    (hok : s.similarity_search q k = .ok res) :
    (res.map SearchResult.distance).Pairwise (· ≤ ·) := by
  unfold FAISSVectorStore.similarity_search at hok
  by_cases hk : k = 0
  · rw [if_pos hk] at hok; cases hok
  · rw [if_neg hk] at hok
    by_cases hq : q.length ≠ s.dimension
    · rw [if_pos hq] at hok; cases hok
    · rw [if_neg hq] at hok
      refine collectResults_pairwise s _ [] res ?_ hok
      simpa using pairwise_fst_faissSearch s.index q k hbound

/-- Witness for C5: searching the two-item store with `k = 3` yields
distances `0, 4, FLT_MAX`, which are non-decreasing. -/
theorem C5_witness :
    (([⟨"a", [], 0⟩, ⟨"b", [], 4⟩, ⟨"b", [], FLT_MAX⟩] :
        List (SearchResult ℤ)).map SearchResult.distance).Pairwise
      (· ≤ ·) :=
  C5_search_results_sorted storeTwo [0] 3 _ (by decide) (by decide) (by decide)
